import Mathlib

/-!
Verification of the MugPunters Report Performance & Re-evaluation Engine.

The data types below mirror `frontend/src/types/index.ts` (Report Tracking
Types) and the `report_performance` SQL schema shipped with the repository.
The backend calculator/orchestrator/aggregator (backend/app/services/
report_manager.py) is not part of the available sources; its operations are
modelled from the specification and are marked as such in their doc comments.
Prices, returns and scores are modelled as rationals; timestamps as natural
numbers (epoch days).
-/

namespace MugPunters

/-- Risk level of an analysis report, per the `risk_level` enum. -/
inductive RiskLevel where
  | conservative
  | moderate
  | aggressive
deriving DecidableEq

/-- Recommendation attached to a report's results, per the `recommendation`
union type in `frontend/src/types/index.ts`. -/
inductive Recommendation where
  | strong_buy
  | buy
  | hold
  | sell
  | strong_sell
deriving DecidableEq

/-- The `results` object of an `AnalysisReport`
(`frontend/src/types/index.ts`); `key_metrics` is opaque and omitted. -/
structure AnalysisResults where
  technical_score : ℚ
  fundamental_score : ℚ
  risk_score : ℚ
  overall_score : ℚ
  recommendation : Recommendation
  confidence : ℚ
  target_price : ℚ
deriving DecidableEq

/-- `ReportPerformance` from `frontend/src/types/index.ts`: the single
performance snapshot attached to a report. Optional fields of the TypeScript
interface are `Option`s. -/
structure ReportPerformance where
  report_id : String
  stock_symbol : String
  original_price : ℚ
  current_price : ℚ
  performance_pct : ℚ
  predicted_return : Option ℚ
  actual_return : ℚ
  accuracy_score : Option ℚ
  days_since_analysis : Option ℕ
  last_updated : ℕ
deriving DecidableEq

/-- `AnalysisReport` from `frontend/src/types/index.ts`, extended with the
`is_active` soft-delete flag that the backend model and the
`analysis_reports` SQL table carry. `parameters` and `key_metrics` are
opaque to the core and omitted. -/
structure AnalysisReport where
  id : String
  user_id : String
  stock_symbol : String
  risk_level : RiskLevel
  timeframe : String
  results : AnalysisResults
  created_at : ℕ
  last_updated : ℕ
  is_active : Bool
  performance : Option ReportPerformance
deriving DecidableEq

/-- Error taxonomy of the core (spec section 7). -/
inductive CoreError where
  | notFound
  | priceUnavailable
  | invalidInput
deriving DecidableEq

/-- Clamp a value into the closed interval from lo to hi. -/
def clamp (v lo hi : ℚ) : ℚ := max lo (min v hi)

/-- Pure return-percentage formula
(current - original) / original * 100. -/
def return_pct (original_price current_price : ℚ) : ℚ :=
  (current_price - original_price) / original_price * 100

/-- Modelled from the spec: `actual_return_pct` of the Performance
Calculator (backend/app/services/report_manager.py is not in the available
sources). Fails with `InvalidInputError` when `original_price <= 0`,
otherwise returns `(current - original) / original * 100`. -/
def actual_return_pct (original_price current_price : ℚ) : Except CoreError ℚ :=
  if original_price ≤ 0 then .error .invalidInput
  else .ok (return_pct original_price current_price)

/-- Modelled from the spec: `predicted_return_pct`, derived from
`(target_price - original_price) / original_price * 100`. -/
def predicted_return_pct (original_price target_price : ℚ) : ℚ :=
  return_pct original_price target_price

/-- Modelled from the spec: `accuracy_score` of the Performance Calculator.
Undefined when `predicted` is undefined or zero; otherwise
`clamp (1 - |actual - predicted| / |predicted|) 0 1`. Matches the in-repo
formula `1.0 - abs(actual_return - predicted_return) / abs(predicted_return)`
with the documented 0.0 to 1.0 range. -/
def accuracy_score (actual : ℚ) (predicted : Option ℚ) : Option ℚ :=
  match predicted with
  | none => none
  | some p => if p = 0 then none else some (clamp (1 - |actual - p| / |p|) 0 1)

/-- Letter grades for prediction accuracy. -/
inductive Grade where
  | A
  | B
  | C
  | D
  | F
deriving DecidableEq

/-- Modelled from the spec: `grade` of the Performance Calculator — A if
accuracy is at least 0.80, B if at least 0.70, C if at least 0.60, D if at
least 0.50, else F (bands inclusive on their lower edge). -/
def grade (accuracy : ℚ) : Grade :=
  if accuracy ≥ 0.80 then .A
  else if accuracy ≥ 0.70 then .B
  else if accuracy ≥ 0.60 then .C
  else if accuracy ≥ 0.50 then .D
  else .F

/-- Grade of an optional accuracy: undefined accuracy gives an undefined
grade (the report is not yet gradable). -/
def gradeOpt : Option ℚ → Option Grade
  | none => none
  | some a => some (grade a)

/-- Qualitative performance buckets. -/
inductive Category where
  | excellent
  | good
  | neutral
  | poor
  | terrible
deriving DecidableEq

/-- Modelled from the spec: `category` of the Performance Calculator as the
natural guard chain over the documented buckets (excellent above 10, good
from 5, neutral above -5, poor from -10, else terrible). The chain is total;
it places the boundary value -5 in `poor`. -/
def category (performance_pct : ℚ) : Category :=
  if performance_pct > 10 then .excellent
  else if performance_pct ≥ 5 then .good
  else if performance_pct > -5 then .neutral
  else if performance_pct ≥ -10 then .poor
  else .terrible

/-- The spec's literal bucket membership, written exactly as the spec states
the intervals: excellent above 10, good in [5,10], neutral in (-5,5), poor
in [-10,-5), terrible below -10. Used to compare the spec's wording with
`category`. -/
def specBucketMem (c : Category) (x : ℚ) : Bool :=
  match c with
  | .excellent => x > 10
  | .good => 5 ≤ x ∧ x ≤ 10
  | .neutral => -5 < x ∧ x < 5
  | .poor => -10 ≤ x ∧ x < -5
  | .terrible => x < -10

/-- Bucket membership with `poor` amended to the closed interval [-10,-5];
with this single change the five buckets partition the rationals. -/
def amendedBucketMem (c : Category) (x : ℚ) : Bool :=
  match c with
  | .excellent => x > 10
  | .good => 5 ≤ x ∧ x ≤ 10
  | .neutral => -5 < x ∧ x < 5
  | .poor => -10 ≤ x ∧ x ≤ -5
  | .terrible => x < -10

/-- Modelled from the spec: the hold neutrality band of
`recommendation_correctness` (plus or minus 2 percent). -/
def HOLD_BAND : ℚ := 2

/-- Modelled from the spec: `recommendation_correctness` — buy-class correct
iff the actual return is positive, sell-class correct iff negative, hold
correct iff the actual return is within the neutrality band. -/
def recommendation_correctness (rec : Recommendation) (actual_return : ℚ) : Bool :=
  match rec with
  | .strong_buy => actual_return > 0
  | .buy => actual_return > 0
  | .sell => actual_return < 0
  | .strong_sell => actual_return < 0
  | .hold => |actual_return| ≤ HOLD_BAND

/-- One side of the best/worst performer fields of `PerformanceSummary`
(`frontend/src/types/index.ts`). -/
structure Performer where
  symbol : String
  performance : ℚ
  report_id : String
deriving DecidableEq

/-- One group of the `recommendation_accuracy` record of
`PerformanceSummary` (`frontend/src/types/index.ts`). -/
structure GroupStats where
  total : ℕ
  positive : ℕ
  accuracy : ℚ
deriving DecidableEq

/-- The `performance_distribution` object of `PerformanceSummary`
(`frontend/src/types/index.ts`). -/
structure Distribution where
  excellent : ℕ
  good : ℕ
  neutral : ℕ
  poor : ℕ
  terrible : ℕ
deriving DecidableEq

/-- `PerformanceSummary` from `frontend/src/types/index.ts`;
`recommendation_accuracy` is the list of groups present in the record,
keyed by recommendation. -/
structure PerformanceSummary where
  total_reports : ℕ
  average_accuracy : Option ℚ
  total_performance : ℚ
  best_performer : Option Performer
  worst_performer : Option Performer
  recommendation_accuracy : List (Recommendation × GroupStats)
  performance_distribution : Distribution
deriving DecidableEq

/-- The reports of the input set that carry a performance snapshot, paired
with that snapshot. -/
def reportsWithPerf (l : List AnalysisReport) :
    List (AnalysisReport × ReportPerformance) :=
  l.filterMap (fun r => r.performance.map (fun p => (r, p)))

/-- Modelled from the spec: the best performer — the report with the
maximal `performance_pct`, undefined on an empty set. -/
def bestPerformer (wp : List (AnalysisReport × ReportPerformance)) :
    Option Performer :=
  wp.foldl
    (fun acc x =>
      match acc with
      | none => some ⟨x.2.stock_symbol, x.2.performance_pct, x.2.report_id⟩
      | some b =>
        if x.2.performance_pct > b.performance then
          some ⟨x.2.stock_symbol, x.2.performance_pct, x.2.report_id⟩
        else some b)
    none

/-- Modelled from the spec: the worst performer — the report with the
minimal `performance_pct`, undefined on an empty set. -/
def worstPerformer (wp : List (AnalysisReport × ReportPerformance)) :
    Option Performer :=
  wp.foldl
    (fun acc x =>
      match acc with
      | none => some ⟨x.2.stock_symbol, x.2.performance_pct, x.2.report_id⟩
      | some b =>
        if x.2.performance_pct < b.performance then
          some ⟨x.2.stock_symbol, x.2.performance_pct, x.2.report_id⟩
        else some b)
    none

/-- All five recommendation values, in declaration order. -/
def allRecommendations : List Recommendation :=
  [.strong_buy, .buy, .hold, .sell, .strong_sell]

/-- The group of performance-carrying reports whose recommendation is
`rec`. -/
def recGroup (wp : List (AnalysisReport × ReportPerformance))
    (rec : Recommendation) : List (AnalysisReport × ReportPerformance) :=
  wp.filter (fun x => x.1.results.recommendation = rec)

/-- Modelled from the spec: `recommendation_accuracy` — grouped by
recommendation value; for each non-empty group, total count, count of
reports correct per `recommendation_correctness`, and accuracy as
positive divided by total. -/
def recommendationAccuracy (wp : List (AnalysisReport × ReportPerformance)) :
    List (Recommendation × GroupStats) :=
  allRecommendations.filterMap (fun rec =>
    let g := recGroup wp rec
    if g.isEmpty then none
    else
      let pos :=
        (g.filter (fun x => recommendation_correctness rec x.2.actual_return)).length
      some (rec, ⟨g.length, pos, (pos : ℚ) / (g.length : ℚ)⟩))

/-- Count of performance-carrying reports whose `performance_pct` falls in
bucket `c`. -/
def categoryCount (wp : List (AnalysisReport × ReportPerformance))
    (c : Category) : ℕ :=
  (wp.filter (fun x => category x.2.performance_pct = c)).length

/-- Modelled from the spec: `performance_distribution` — counts of the
performance-carrying reports over the five buckets. -/
def performanceDistribution (wp : List (AnalysisReport × ReportPerformance)) :
    Distribution :=
  ⟨categoryCount wp .excellent, categoryCount wp .good,
   categoryCount wp .neutral, categoryCount wp .poor,
   categoryCount wp .terrible⟩

/-- Modelled from the spec: `summarize` of the Summary Aggregator. Average
accuracy is the mean over reports with a defined accuracy (excluded, not
zeroed, when undefined); best/worst performer are undefined on an empty
performance set; never an error. -/
def summarize (l : List AnalysisReport) : PerformanceSummary :=
  let wp := reportsWithPerf l
  let accs := wp.filterMap (fun x => x.2.accuracy_score)
  { total_reports := l.length
    average_accuracy :=
      if accs.isEmpty then none else some (accs.sum / (accs.length : ℚ))
    total_performance := (wp.map (fun x => x.2.performance_pct)).sum
    best_performer := bestPerformer wp
    worst_performer := worstPerformer wp
    recommendation_accuracy := recommendationAccuracy wp
    performance_distribution := performanceDistribution wp }

/-- The persistent state the Re-evaluation Orchestrator reads and writes:
the stored reports and their single performance rows. -/
structure DB where
  reports : List AnalysisReport
  perfs : List ReportPerformance
deriving DecidableEq

/-- Look a stored report up by id. -/
def findReport (db : DB) (rid : String) : Option AnalysisReport :=
  db.reports.find? (fun r => r.id = rid)

/-- Look the stored performance row of a report up. -/
def findPerf (db : DB) (rid : String) : Option ReportPerformance :=
  db.perfs.find? (fun p => p.report_id = rid)

/-- Modelled from the spec: `re_evaluate(report_id)` of the Re-evaluation
Orchestrator. Loads the report (NotFoundError when missing or inactive),
resolves `original_price` from the stored performance row (the row is
written at creation; a report without one is malformed, InvalidInputError),
fetches the current price (`priceResult` is the Price Source's answer,
`none` when the source cannot answer or timed out, giving
PriceUnavailableError with no write), computes the new metrics, and
atomically replaces the performance row and bumps the report's
`last_updated`. Returns the new row together with the unchanged or updated
state. -/
def reEvaluateOp (db : DB) (rid : String) (priceResult : Option ℚ)
    (now : ℕ) : Except CoreError ReportPerformance × DB :=
  match findReport db rid with
  | none => (.error .notFound, db)
  | some rep =>
    if rep.is_active = false then (.error .notFound, db)
    else
      match findPerf db rid with
      | none => (.error .invalidInput, db)
      | some row =>
        match priceResult with
        | none => (.error .priceUnavailable, db)
        | some cp =>
          match actual_return_pct row.original_price cp with
          | .error e => (.error e, db)
          | .ok pct =>
            let newRow : ReportPerformance :=
              { row with
                current_price := cp
                performance_pct := pct
                actual_return := pct
                accuracy_score := accuracy_score pct row.predicted_return
                days_since_analysis := some (now - rep.created_at)
                last_updated := now }
            let db2 : DB :=
              { reports :=
                  db.reports.map (fun r =>
                    if r.id = rid then { r with last_updated := now } else r)
                perfs :=
                  db.perfs.map (fun p =>
                    if p.report_id = rid then newRow else p) }
            (.ok newRow, db2)

/-- `ReportListResponse` from `frontend/src/types/index.ts`. -/
structure ReportListResponse where
  reports : List AnalysisReport
  total : ℕ
  skip : ℕ
  limit : ℕ

/-- `ReEvaluationResponse` from `frontend/src/types/index.ts`. -/
structure ReEvaluationResponse where
  report_id : String
  stock_symbol : String
  original_analysis_date : ℕ
  re_evaluation_date : ℕ
  original_price : ℚ
  current_price : ℚ
  performance_pct : ℚ
  predicted_return : Option ℚ
  actual_return : ℚ
  accuracy_score : Option ℚ
  days_since_analysis : ℕ
  original_recommendation : Option String
  original_confidence : Option ℚ
  original_target_price : Option ℚ
  performance_summary : String

/-- The `price_movement` object of `PerformanceMetrics`. -/
structure PriceMovement where
  original_price : ℚ
  current_price : ℚ
  price_change : ℚ
  price_change_pct : ℚ

/-- The `return_analysis` object of `PerformanceMetrics`. -/
structure ReturnAnalysis where
  predicted_return : Option ℚ
  actual_return : ℚ
  return_difference : ℚ
  accuracy_score : Option ℚ

/-- The `time_analysis` object of `PerformanceMetrics`. -/
structure TimeAnalysis where
  days_since_analysis : Option ℕ
  analysis_timeframe : String
  risk_level : String

/-- The `recommendation_accuracy` object of `PerformanceMetrics`. -/
structure RecommendationCheck where
  recommendation : String
  was_correct : Bool
  performance : ℚ
  confidence : ℚ

/-- The `benchmark_comparison` object of `PerformanceMetrics`. -/
structure BenchmarkComparison where
  benchmark_performance : ℚ
  outperformance : ℚ
  benchmark_name : String

/-- `PerformanceMetrics` from `frontend/src/types/index.ts`. -/
structure PerformanceMetrics where
  report_id : String
  stock_symbol : String
  analysis_date : ℕ
  last_updated : ℕ
  price_movement : PriceMovement
  return_analysis : ReturnAnalysis
  time_analysis : TimeAnalysis
  recommendation_accuracy : RecommendationCheck
  performance_grade : String
  benchmark_comparison : BenchmarkComparison

/-- An HTTP response as `makeRequest` observes it: the numeric status, the
`detail` field of the parsed error body (`none` when absent or when the
body could not be parsed, matching the `.catch` fallback to an empty
object), and the parsed JSON body. -/
structure HttpResponse (T : Type) where
  status : ℕ
  errorDetail : Option String
  body : T

/-- The fetch API's `response.ok`: status in the range 200 to 299. -/
def respOk (status : ℕ) : Bool := 200 ≤ status && status < 300

/-- The generic error message built from the status. -/
def statusMessage (status : ℕ) : String :=
  "HTTP error! status: " ++ toString status

/-- JavaScript's short-circuit `detail || fallback` on an optional string:
an absent or empty (falsy) detail yields the fallback. -/
def jsOr (detail : Option String) (fallback : String) : String :=
  match detail with
  | some s => if s = "" then fallback else s
  | none => fallback

/-- `ReportApiService.makeRequest` (frontend/src/services/reportApi.ts):
on a non-ok response it throws an Error whose message is the error body's
`detail` when truthy, else the generic status message; on an ok response
it returns the parsed JSON body. -/
def makeRequest {T : Type} (resp : HttpResponse T) : Except String T :=
  if respOk resp.status then .ok resp.body
  else .error (jsOr resp.errorDetail (statusMessage resp.status))

/-- `ReportApiService.getReports`: delegates to `makeRequest` (query-string
building does not affect the response handling). -/
def getReports (resp : HttpResponse ReportListResponse) :
    Except String ReportListResponse :=
  makeRequest resp

/-- `ReportApiService.getReport`: delegates to `makeRequest`. -/
def getReport (resp : HttpResponse AnalysisReport) :
    Except String AnalysisReport :=
  makeRequest resp

/-- `ReportApiService.createReport`: delegates to `makeRequest`. -/
def createReport (resp : HttpResponse AnalysisReport) :
    Except String AnalysisReport :=
  makeRequest resp

/-- `ReportApiService.reEvaluateReport`: delegates to `makeRequest`. -/
def reEvaluateReport (resp : HttpResponse ReEvaluationResponse) :
    Except String ReEvaluationResponse :=
  makeRequest resp

/-- `ReportApiService.getReportPerformance`: delegates to `makeRequest`. -/
def getReportPerformance (resp : HttpResponse PerformanceMetrics) :
    Except String PerformanceMetrics :=
  makeRequest resp

/-- `ReportApiService.getPerformanceSummary`: delegates to `makeRequest`. -/
def getPerformanceSummary (resp : HttpResponse PerformanceSummary) :
    Except String PerformanceSummary :=
  makeRequest resp

/-- Sample analysis results, following the CBA report of the repository's
mock data (`ReportHistory.tsx`). -/
def sampleResults : AnalysisResults :=
  ⟨75, 82, 68, 75, .buy, 78/100, 191/2⟩

/-- Sample stored performance row for the CBA report. -/
def samplePerfRow : ReportPerformance :=
  ⟨"1", "CBA", 177/2, 923/10, 429/100, some (79/10), 429/100,
   some (27/50), none, 5⟩

/-- Sample analysis report for the CBA scenario. -/
def sampleReport : AnalysisReport :=
  ⟨"1", "u1", "CBA", .moderate, "1y", sampleResults, 0, 0, true,
   some samplePerfRow⟩

/-- Sample orchestrator state holding the CBA report and its row. -/
def sampleDB : DB := ⟨[sampleReport], [samplePerfRow]⟩

/-- Sample report-list response. -/
def sampleListResponse : ReportListResponse := ⟨[sampleReport], 1, 0, 10⟩

/-- Sample re-evaluation response. -/
def sampleReEval : ReEvaluationResponse :=
  ⟨"1", "CBA", 0, 5, 177/2, 923/10, 429/100, some (79/10), 429/100,
   some (27/50), 5, some "buy", some (78/100), some (191/2),
   "CBA is up 4.29 percent vs a predicted 7.91 percent"⟩

/-- Sample detailed performance metrics. -/
def sampleMetrics : PerformanceMetrics :=
  ⟨"1", "CBA", 0, 5, ⟨177/2, 923/10, 19/5, 429/100⟩,
   ⟨some (79/10), 429/100, -361/100, some (27/50)⟩,
   ⟨some 5, "1y", "moderate"⟩, ⟨"buy", true, 429/100, 78/100⟩, "D",
   ⟨2, 229/100, "ASX 200"⟩⟩

/-! Theorems. -/

/-- C1: `accuracy_score` is undefined when `predicted` is undefined or 0
(no division occurs); otherwise it equals
`clamp (1 - |actual - predicted| / |predicted|) 0 1`; whenever defined it
lies in [0,1]; and it is exactly 1 when `actual = predicted`. -/
theorem C1_accuracy_score_spec (a p : ℚ) :
    accuracy_score a none = none ∧
    accuracy_score a (some 0) = none ∧
    (p ≠ 0 → accuracy_score a (some p) = some (clamp (1 - |a - p| / |p|) 0 1)) ∧
    (∀ r : ℚ, accuracy_score a (some p) = some r → 0 ≤ r ∧ r ≤ 1) ∧
    (p ≠ 0 → a = p → accuracy_score a (some p) = some 1) := by
  refine ⟨rfl, by simp [accuracy_score], ?_, ?_, ?_⟩
  · intro hp
    simp [accuracy_score, hp]
  · intro r hr
    by_cases hp : p = 0
    · simp [accuracy_score, hp] at hr
    · simp only [accuracy_score, hp, if_false, if_neg, Option.some.injEq] at hr
      subst hr
      unfold clamp
      exact ⟨le_max_left 0 _, max_le (by norm_num) (min_le_right _ 1)⟩
  · intro hp hap
    subst hap
    simp [accuracy_score, hp, clamp]

/-- Witness for C1 at concrete inputs. -/
theorem C1_witness :
    ((79 : ℚ)/10 ≠ 0) ∧
    accuracy_score (79/10) (some (79/10)) = some 1 := by
  have h := (C1_accuracy_score_spec (79/10) (79/10)).2.2.2.2
  exact ⟨by norm_num, h (by norm_num) rfl⟩

/-- C2 as stated is false: `category` assigns the boundary value -5 to
`poor`, yet by the claim's literal buckets (poor being the interval
[-10,-5)) the value -5 belongs to none of the five buckets, so the stated
buckets leave -5 unmapped. -/
theorem C2_counterexample :
    category (-5) = Category.poor ∧
    specBucketMem Category.excellent (-5) = false ∧
    specBucketMem Category.good (-5) = false ∧
    specBucketMem Category.neutral (-5) = false ∧
    specBucketMem Category.poor (-5) = false ∧
    specBucketMem Category.terrible (-5) = false := by
  refine ⟨?_, by decide, by decide, by decide, by decide, by decide⟩
  norm_num [category]

/-- C2 amended: with `poor` amended to the closed interval [-10,-5], the
five buckets are exhaustive and disjoint: `category` maps every rational
`x` to `c` exactly when `x` lies in the amended bucket `c`. -/
theorem C2_category_partition (x : ℚ) (c : Category) :
    category x = c ↔ amendedBucketMem c x = true := by
  unfold category amendedBucketMem
  cases c <;> split_ifs <;> simp_all <;>
    first
      | linarith
      | (intro h; linarith)
      | (constructor <;> linarith)
      | (constructor <;> intro h <;> linarith)

/-- Witness for C2 at a concrete input. -/
theorem C2_witness : category 7 = Category.good :=
  (C2_category_partition 7 Category.good).mpr (by decide)

/-- C3: over accuracy values in [0,1], the grade bands are inclusive on
their lower edge and exhaustive — A iff at least 0.80, B iff in
[0.70,0.80), C iff in [0.60,0.70), D iff in [0.50,0.60), F iff below 0.50
— and an undefined accuracy yields an undefined grade. -/
theorem C3_grade_bands (a : ℚ) (h0 : 0 ≤ a) (h1 : a ≤ 1) :
    ((grade a = .A ↔ 0.80 ≤ a) ∧
     (grade a = .B ↔ 0.70 ≤ a ∧ a < 0.80) ∧
     (grade a = .C ↔ 0.60 ≤ a ∧ a < 0.70) ∧
     (grade a = .D ↔ 0.50 ≤ a ∧ a < 0.60) ∧
     (grade a = .F ↔ a < 0.50)) ∧
    gradeOpt none = none := by
  refine ⟨?_, rfl⟩
  unfold grade
  split_ifs with g1 g2 g3 g4 <;>
    refine ⟨?_, ?_, ?_, ?_, ?_⟩ <;> simp_all <;>
    first
      | linarith
      | (intro h; linarith)
      | (constructor <;> linarith)
      | (constructor <;> intro h <;> linarith)

/-- Witness for C3 at a concrete accuracy. -/
theorem C3_witness :
    (0 : ℚ) ≤ 3/4 ∧ (3 : ℚ)/4 ≤ 1 ∧ grade (3/4) = Grade.B := by
  have h := (C3_grade_bands (3/4) (by norm_num) (by norm_num)).1.2.1
  exact ⟨by norm_num, by norm_num, h.mpr ⟨by norm_num, by norm_num⟩⟩

/-- C4: the CBA scenario — original price 88.50, target price 95.50,
current price 92.30 — yields a performance_pct of about 4.29, an accuracy
score of exactly 19/35 (about 0.542), grade D, and category neutral. -/
theorem C4_cba_scenario :
    return_pct 88.50 92.30 = 760/177 ∧
    |return_pct 88.50 92.30 - 4.29| < 0.01 ∧
    predicted_return_pct 88.50 95.50 = 1400/177 ∧
    |predicted_return_pct 88.50 95.50 - 7.91| < 0.01 ∧
    accuracy_score (return_pct 88.50 92.30)
      (some (predicted_return_pct 88.50 95.50)) = some (19/35) ∧
    |(19 : ℚ)/35 - 0.542| < 0.001 ∧
    gradeOpt (accuracy_score (return_pct 88.50 92.30)
      (some (predicted_return_pct 88.50 95.50))) = some Grade.D ∧
    category (return_pct 88.50 92.30) = Category.neutral := by
  have h1 : return_pct 88.50 92.30 = 760/177 := by norm_num [return_pct]
  have h2 : predicted_return_pct 88.50 95.50 = 1400/177 := by
    norm_num [predicted_return_pct, return_pct]
  have hacc : accuracy_score (760/177 : ℚ) (some (1400/177)) = some (19/35) := by
    simp only [accuracy_score]
    rw [if_neg (by norm_num : ¬ (1400/177 : ℚ) = 0)]
    have e1 : |(760 : ℚ)/177 - 1400/177| = 640/177 := by
      rw [abs_of_nonpos (by norm_num)]; norm_num
    have e2 : |(1400 : ℚ)/177| = 1400/177 := abs_of_nonneg (by norm_num)
    rw [e1, e2]
    unfold clamp
    rw [show (1 : ℚ) - 640/177 / (1400/177) = 19/35 by norm_num]
    rw [min_eq_left (by norm_num), max_eq_right (by norm_num)]
  refine ⟨h1, ?_, h2, ?_, ?_, ?_, ?_, ?_⟩
  · rw [h1, abs_of_nonneg (by norm_num)]; norm_num
  · rw [h2, abs_of_nonpos (by norm_num)]; norm_num
  · rw [h1, h2]; exact hacc
  · rw [abs_of_nonneg (by norm_num)]; norm_num
  · rw [h1, h2, hacc]
    simp only [gradeOpt, grade]
    rw [if_neg (by norm_num), if_neg (by norm_num), if_neg (by norm_num),
      if_pos (by norm_num)]
  · rw [h1]
    unfold category
    rw [if_neg (by norm_num), if_neg (by norm_num), if_pos (by norm_num)]

/-- C5: for positive original prices `actual_return_pct` succeeds with the
return formula and round-trips exactly over the rationals, and it fails
with InvalidInputError exactly when the original price is non-positive. -/
theorem C5_actual_return_round_trip (op cp : ℚ) :
    (0 < op →
      actual_return_pct op cp = .ok (return_pct op cp) ∧
      op * (1 + return_pct op cp / 100) = cp) ∧
    (actual_return_pct op cp = .error .invalidInput ↔ op ≤ 0) := by
  constructor
  · intro h
    have hne : op ≠ 0 := ne_of_gt h
    constructor
    · unfold actual_return_pct
      rw [if_neg (not_le.mpr h)]
    · unfold return_pct
      field_simp
      ring
  · unfold actual_return_pct
    constructor
    · intro he
      by_contra hpos
      rw [if_neg hpos] at he
      exact Except.noConfusion he
    · intro hle
      rw [if_pos hle]

/-- Witness for C5 at concrete prices. -/
theorem C5_witness :
    actual_return_pct 2 3 = Except.ok (return_pct 2 3) ∧
    (2 : ℚ) * (1 + return_pct 2 3 / 100) = 3 :=
  (C5_actual_return_round_trip 2 3).1 (by norm_num)

/-- C6: when the Price Source cannot answer during a re-evaluation of a
found, active report with a stored performance row, the operation fails
with PriceUnavailableError and the state — in particular the stored
`ReportPerformance` row — is returned exactly as it was, with no partial
write. -/
theorem C6_price_unavailable_no_write (db : DB) (rid : String) (now : ℕ)
    (rep : AnalysisReport) (row : ReportPerformance)
    (hrep : findReport db rid = some rep) (hact : rep.is_active = true)
    (hrow : findPerf db rid = some row) :
    reEvaluateOp db rid none now = (.error .priceUnavailable, db) := by
  unfold reEvaluateOp
  rw [hrep]
  simp [hact, hrow]

/-- Witness for C6 on the sample state. -/
theorem C6_witness :
    reEvaluateOp sampleDB "1" none 5 =
      (.error .priceUnavailable, sampleDB) :=
  C6_price_unavailable_no_write sampleDB "1" 5 sampleReport samplePerfRow
    rfl rfl rfl

/-- C7: summarizing an empty report set never errors and yields the empty
summary — zero total, all distribution counts zero, and undefined average
accuracy, best performer and worst performer. -/
theorem C7_empty_summary :
    summarize [] =
      { total_reports := 0
        average_accuracy := none
        total_performance := 0
        best_performer := none
        worst_performer := none
        recommendation_accuracy := []
        performance_distribution := ⟨0, 0, 0, 0, 0⟩ } := by
  rfl

/-- Helper: the five per-bucket counts sum to the length of the counted
list, because `category` is total and single-valued. -/
theorem categoryCount_sum (wp : List (AnalysisReport × ReportPerformance)) :
    categoryCount wp .excellent + categoryCount wp .good +
    categoryCount wp .neutral + categoryCount wp .poor +
    categoryCount wp .terrible = wp.length := by
  induction wp with
  | nil => rfl
  | cons x xs ih =>
    simp only [categoryCount, List.filter_cons] at ih ⊢
    cases h : category x.2.performance_pct <;>
      simp [h] <;> omega

/-- Helper: the paired performance list is as long as the sublist of
reports carrying a snapshot. -/
theorem reportsWithPerf_length (l : List AnalysisReport) :
    (reportsWithPerf l).length =
      (l.filter (fun r => r.performance.isSome)).length := by
  induction l with
  | nil => rfl
  | cons r rs ih =>
    simp only [reportsWithPerf, List.filterMap_cons, List.filter_cons] at ih ⊢
    cases h : r.performance <;> simp [h, ih]

/-- C8: for every input report set the five counts of the summary's
performance distribution sum to the number of reports carrying a
performance snapshot. -/
theorem C8_distribution_sum (l : List AnalysisReport) :
    (summarize l).performance_distribution.excellent +
    (summarize l).performance_distribution.good +
    (summarize l).performance_distribution.neutral +
    (summarize l).performance_distribution.poor +
    (summarize l).performance_distribution.terrible =
    (l.filter (fun r => r.performance.isSome)).length := by
  have h1 := categoryCount_sum (reportsWithPerf l)
  have h2 := reportsWithPerf_length l
  simp only [summarize, performanceDistribution]
  omega

/-- C9: `recommendation_correctness` holds exactly for buy-class with a
positive actual return, sell-class with a negative one, or hold within the
2-percent neutrality band; and every group of the summary's
recommendation accuracy reports the group size, the count of correct
reports, and accuracy equal to positive over total. -/
theorem C9_recommendation_accuracy_spec (l : List AnalysisReport)
    (rec : Recommendation) (ar : ℚ) (s : GroupStats) :
    (recommendation_correctness rec ar = true ↔
      ((rec = .strong_buy ∨ rec = .buy) ∧ 0 < ar) ∨
      ((rec = .sell ∨ rec = .strong_sell) ∧ ar < 0) ∨
      (rec = .hold ∧ |ar| ≤ 2)) ∧
    ((rec, s) ∈ (summarize l).recommendation_accuracy →
      s.total = (recGroup (reportsWithPerf l) rec).length ∧
      s.positive = ((recGroup (reportsWithPerf l) rec).filter
        (fun x => recommendation_correctness rec x.2.actual_return)).length ∧
      s.accuracy = (s.positive : ℚ) / (s.total : ℚ)) := by
  constructor
  · cases rec <;> simp [recommendation_correctness, HOLD_BAND]
  · intro hmem
    simp only [summarize] at hmem
    unfold recommendationAccuracy at hmem
    rw [List.mem_filterMap] at hmem
    obtain ⟨rec2, _h1, heq⟩ := hmem
    dsimp only at heq
    split at heq
    · exact absurd heq (by simp)
    · rw [Option.some.injEq, Prod.mk.injEq] at heq
      obtain ⟨hrec, hs⟩ := heq
      subst hrec
      subst hs
      exact ⟨rfl, rfl, rfl⟩

/-- Helper: the recommendation-accuracy record of the one-report sample. -/
theorem sample_rec_accuracy :
    (summarize [sampleReport]).recommendation_accuracy =
      [(Recommendation.buy, ⟨1, 1, 1⟩)] := by
  simp [summarize, recommendationAccuracy, allRecommendations, recGroup,
    reportsWithPerf, sampleReport, samplePerfRow, sampleResults,
    recommendation_correctness, HOLD_BAND]

/-- Witness for C9 on the sample report set. -/
theorem C9_witness :
    (⟨1, 1, 1⟩ : GroupStats).total =
      (recGroup (reportsWithPerf [sampleReport]) Recommendation.buy).length ∧
    (⟨1, 1, 1⟩ : GroupStats).accuracy =
      (((⟨1, 1, 1⟩ : GroupStats).positive : ℚ)) /
        (((⟨1, 1, 1⟩ : GroupStats).total : ℚ)) ∧
    recommendation_correctness Recommendation.buy 3 = true := by
  have h :=
    C9_recommendation_accuracy_spec [sampleReport] Recommendation.buy 3 ⟨1, 1, 1⟩
  have h2 := h.2 (by rw [sample_rec_accuracy]; exact List.mem_singleton.mpr rfl)
  exact ⟨h2.1, h2.2.2, h.1.mpr (Or.inl ⟨Or.inr rfl, by norm_num⟩)⟩

/-- C10 fails as stated: on a non-ok response whose error body carries a
present but empty `detail` field, `makeRequest` does not use `detail` as
the message (JavaScript's short-circuit treats the empty string as falsy)
but falls back to the generic status message. -/
theorem C10_counterexample :
    getPerformanceSummary ⟨500, some "", summarize []⟩ =
      .error "HTTP error! status: 500" ∧
    ("HTTP error! status: 500" : String) ≠ "" := by
  exact ⟨rfl, by decide⟩

/-- C10 amended: every operation of `ReportApiService` delegates to
`makeRequest`, which errors exactly when the response status is outside
200 to 299, with the error body's `detail` as the message when present and
non-empty (else the generic status message), and returns the parsed body
unchanged on an ok response. -/
theorem C10_make_request_spec (T : Type) (resp : HttpResponse T)
    (r1 : HttpResponse ReportListResponse)
    (r2 r3 : HttpResponse AnalysisReport)
    (r4 : HttpResponse ReEvaluationResponse)
    (r5 : HttpResponse PerformanceMetrics)
    (r6 : HttpResponse PerformanceSummary) :
    getReports r1 = makeRequest r1 ∧
    getReport r2 = makeRequest r2 ∧
    createReport r3 = makeRequest r3 ∧
    reEvaluateReport r4 = makeRequest r4 ∧
    getReportPerformance r5 = makeRequest r5 ∧
    getPerformanceSummary r6 = makeRequest r6 ∧
    (respOk resp.status = true ↔ 200 ≤ resp.status ∧ resp.status < 300) ∧
    (respOk resp.status = true → makeRequest resp = .ok resp.body) ∧
    (respOk resp.status = false →
      makeRequest resp =
        .error (jsOr resp.errorDetail (statusMessage resp.status))) ∧
    (∀ d, respOk resp.status = false → resp.errorDetail = some d → d ≠ "" →
      makeRequest resp = .error d) ∧
    ((∃ e, makeRequest resp = .error e) ↔ respOk resp.status = false) := by
  refine ⟨rfl, rfl, rfl, rfl, rfl, rfl, ?_, ?_, ?_, ?_, ?_, ?_⟩
  · simp [respOk]
  · intro h; simp [makeRequest, h]
  · intro h; simp [makeRequest, h]
  · intro d h hd hne; simp [makeRequest, h, jsOr, hd, hne]
  · rintro ⟨e, he⟩
    cases hok : respOk resp.status
    · rfl
    · simp [makeRequest, hok] at he
  · intro h
    exact ⟨jsOr resp.errorDetail (statusMessage resp.status),
      by simp [makeRequest, h]⟩

/-- Witness for the amended C10 on a concrete ok response. -/
theorem C10_witness :
    respOk 200 = true ∧
    makeRequest ⟨200, none, sampleListResponse⟩ =
      .ok sampleListResponse := by
  have h := C10_make_request_spec ReportListResponse
    ⟨200, none, sampleListResponse⟩
    ⟨200, none, sampleListResponse⟩
    ⟨200, none, sampleReport⟩ ⟨200, none, sampleReport⟩
    ⟨200, none, sampleReEval⟩ ⟨200, none, sampleMetrics⟩
    ⟨200, none, summarize []⟩
  exact ⟨rfl, h.2.2.2.2.2.2.2.1 rfl⟩

end MugPunters
